import Mathlib

/-!
Verification development for the IChancy session-managed HTTP client
(`ichancy_api.py`, `ichancy_create_account.py`).

The source is shallowly embedded: Python values are modelled by the
inductive `PyVal`; the remote service and all nondeterminism (HTTP
responses, clock, random draws, timestamp serialisation) are supplied by
an explicit environment `Env`; the mutable client object (`self.scraper`,
`self.is_logged_in`) together with the three Redis keys is the state `St`.
Python exceptions are modelled with `Except String`; functions whose
source catches every exception are total.
-/

/-- Model of a Python/JSON value as it appears in this program: `None`,
booleans, integers, strings, lists, tuples and string-keyed dicts.
Python floats are modelled by integers (only `0.0` and integral balances
occur in the verified properties). -/
inductive PyVal where
  | none : PyVal
  | bool (b : Bool) : PyVal
  | int (n : Int) : PyVal
  | str (s : String) : PyVal
  | list (xs : List PyVal) : PyVal
  | tuple (xs : List PyVal) : PyVal
  | dict (xs : List (String × PyVal)) : PyVal

/-- `result is None`. -/
def PyVal.isNone : PyVal → Bool
  | .none => true
  | _ => false

/-- `isinstance(x, dict)`. -/
def PyVal.isDict : PyVal → Bool
  | .dict _ => true
  | _ => false

/-- Python truthiness (`bool(x)`): `None`, `False`, `0`, `""` and empty
containers are falsy, everything else is truthy. -/
def pyTruthy : PyVal → Bool
  | .none => false
  | .bool b => b
  | .int n => n != 0
  | .str s => s ≠ ""
  | .list xs => !xs.isEmpty
  | .tuple xs => !xs.isEmpty
  | .dict xs => !xs.isEmpty

/-- First binding of a key in a dict (`k in d` lookup). -/
def dLookup : List (String × PyVal) → String → Option PyVal
  | [], _ => Option.none
  | (k, v) :: rest, key => if k = key then some v else dLookup rest key

/-- Python `d.get(key, default)`. -/
def dGetD (d : List (String × PyVal)) (key : String) (dflt : PyVal) : PyVal :=
  match dLookup d key with
  | some v => v
  | Option.none => dflt

/-- Python `x == n` for an integer literal `n` (`True == 1` holds). -/
def pyEqInt : PyVal → Int → Bool
  | .int m, n => m == n
  | .bool b, n => (if b then (1 : Int) else 0) == n
  | _, _ => false

/-- Python `x == s` for a string literal `s`. -/
def pyEqStr : PyVal → String → Bool
  | .str t, s => t == s
  | _, _ => false

/-- The apostrophe character used by Python `repr` for string quoting. -/
def pyQuote : Char := Char.ofNat 39

mutual

/-- Python `repr(x)` (as used inside containers by `str`): strings are
quoted, `None`/`True`/`False` are capitalised. String escaping and the
double-quote fallback of `repr` are not modelled; the verified properties
only inspect the rendered text for fixed lower-case substrings. -/
def pyReprV : PyVal → String
  | .none => "None"
  | .bool b => if b then "True" else "False"
  | .int n => toString n
  | .str s => String.singleton pyQuote ++ s ++ String.singleton pyQuote
  | .list xs => "[" ++ pyReprList xs ++ "]"
  | .tuple [x] => "(" ++ pyReprV x ++ ",)"
  | .tuple xs => "(" ++ pyReprList xs ++ ")"
  | .dict xs => "\x7b" ++ pyReprDict xs ++ "\x7d"

/-- Comma-separated rendering of container elements. -/
def pyReprList : List PyVal → String
  | [] => ""
  | [x] => pyReprV x
  | x :: xs => pyReprV x ++ ", " ++ pyReprList xs

/-- Comma-separated rendering of dict entries. -/
def pyReprDict : List (String × PyVal) → String
  | [] => ""
  | [(k, v)] =>
      String.singleton pyQuote ++ k ++ String.singleton pyQuote ++ ": " ++ pyReprV v
  | (k, v) :: xs =>
      String.singleton pyQuote ++ k ++ String.singleton pyQuote ++ ": " ++ pyReprV v
        ++ ", " ++ pyReprDict xs

end

/-- Python `str(x)`: like `repr` except that a top-level string is
rendered without quotes. -/
def pyStr : PyVal → String
  | .str s => s
  | v => pyReprV v

/-- Does `needle` occur at the start of `hay`? -/
def begWith : List Char → List Char → Bool
  | [], _ => true
  | _ :: _, [] => false
  | a :: as, b :: bs => a == b && begWith as bs

/-- Python `needle in hay` on strings (substring occurrence). -/
def hasSub (needle : List Char) : List Char → Bool
  | [] => begWith needle []
  | b :: bs => begWith needle (b :: bs) || hasSub needle bs

/-- `_check_captcha` / the wrapper's challenge-marker test: lower-case the
text and look for a `"captcha"` or `"cloudflare"` substring
(`ichancy_api.py` lines 192-197 and 292-293). -/
def challengeMark (s : String) : Bool :=
  let t := s.data.map Char.toLower
  hasSub "captcha".data t || hasSub "cloudflare".data t

/-- One HTTP response: status code, body text, and the outcome of
`resp.json()` (`Option.none` models a JSON decode failure). -/
structure Response where
  status : Int
  text : String
  json : Option PyVal

/-- The client's mutable state: whether the cloudscraper object exists
(`self.scraper is not None`), the `self.is_logged_in` flag, the three
Redis keys (a `Option.none` field models an absent key), and counters
into the environment's HTTP-response and random streams. -/
structure St where
  scraperInited : Bool
  isLoggedIn : Bool
  rCookies : Option String
  rExpiry : Option String
  rLastLogin : Option String
  httpIdx : Nat
  randIdx : Nat
deriving DecidableEq

/-- The external world: the remote service's reply to the process's `k`-th
POST (`Except.error` models a transport-level exception and carries
`str(e)`), whether `json.loads` accepts a stored cookie blob, the cookie
blob `json.dumps` produces on save, ISO-8601 timestamp (de)serialisation,
the current instant `datetime.utcnow()` in seconds, the two configured
durations, and oracles for the `random` module's successive draws
(a generated login/password pair, and `random.randint(1000, 9999)`). -/
structure Env where
  http : Nat → Except String Response
  cookiesParse : String → Bool
  cookiesBlob : String
  tsFormat : Int → String
  tsParse : String → Option Int
  now : Int
  durationMin : Int
  maxAgeHours : Int
  randCred : Nat → String × String
  randInt : Nat → Int

/-- `_is_session_valid` (`ichancy_api.py` lines 127-149): false when either
timestamp key is absent or empty (Python falsiness of the string) or fails
to parse; otherwise `now < session_expiry and now - last_login <
max_session_age`. The source also computes `session_duration` from
`SESSION_DURATION_MIN` but never uses it in this check. Times are in
seconds, so `timedelta(hours=h)` is `h * 3600`. -/
def isSessionValid (parse : String → Option Int) (maxAgeHours : Int) :
    Option String → Option String → Int → Bool
  | some es, some ls, now =>
    if es = "" || ls = "" then false
    else
      match parse es, parse ls with
      | some te, some tl => decide (now < te) && decide (now - tl < maxAgeHours * 3600)
      | _, _ => false
  | _, _, _ => false

/-- `_is_session_valid` read off the state and environment. -/
def isValidSt (env : Env) (st : St) : Bool :=
  isSessionValid env.tsParse env.maxAgeHours st.rExpiry st.rLastLogin env.now

/-- `_init_scraper` (`ichancy_api.py` lines 95-122): create the scraper,
and if a non-empty cookie blob is stored and parses and the session is
valid, mark the client logged in; otherwise mark it logged out. -/
def initScraper (env : Env) (st : St) : St :=
  let st1 := { st with scraperInited := true }
  match st.rCookies with
  | some cj =>
    if cj ≠ "" then
      if env.cookiesParse cj then
        if isValidSt env st1 then { st1 with isLoggedIn := true }
        else { st1 with isLoggedIn := false }
      else { st1 with isLoggedIn := false }
    else { st1 with isLoggedIn := false }
  | Option.none => { st1 with isLoggedIn := false }

/-- `_save_session_to_redis` (`ichancy_api.py` lines 151-169): write the
cookie blob, `now + timedelta(minutes=SESSION_DURATION_MIN)` as the expiry
and `now` as the last login, both from the same `datetime.utcnow()` read. -/
def saveSession (env : Env) (st : St) : St :=
  { st with
    rCookies := some env.cookiesBlob
    rExpiry := some (env.tsFormat (env.now + env.durationMin * 60))
    rLastLogin := some (env.tsFormat env.now) }

/-- `_clear_session_in_redis` (`ichancy_api.py` lines 171-179): delete the
three keys and mark the client logged out. -/
def clearSession (st : St) : St :=
  { st with
    rCookies := Option.none
    rExpiry := Option.none
    rLastLogin := Option.none
    isLoggedIn := false }

/-- Record one POST: hand the environment's next response over and advance
the request counter. -/
def postStep (env : Env) (st : St) : St × Except String Response :=
  ({ st with httpIdx := st.httpIdx + 1 }, env.http st.httpIdx)

/-- `data.get("notification", [{}])[0].get("content", "Login failed")`.
The source evaluates this eagerly; an `Except.error` models the
`IndexError`/`AttributeError`/`TypeError` the expression itself raises on
ill-shaped `notification` values (the exact Python message texts are
abbreviated to the exception names). -/
def notifContent (d : List (String × PyVal)) : Except String PyVal :=
  match dGetD d "notification" (.list [.dict []]) with
  | .list ((.dict fd) :: _) => .ok (dGetD fd "content" (.str "Login failed"))
  | .tuple ((.dict fd) :: _) => .ok (dGetD fd "content" (.str "Login failed"))
  | .list (_ :: _) => .error "AttributeError"
  | .tuple (_ :: _) => .error "AttributeError"
  | .list [] => .error "IndexError"
  | .tuple [] => .error "IndexError"
  | .str s => if s = "" then .error "IndexError" else .error "AttributeError"
  | _ => .error "TypeError"

/-- The lazy `if not self.scraper: self._init_scraper()` step that both
`login` and `ensure_login` begin with. -/
def preSt (env : Env) (st : St) : St :=
  if st.scraperInited then st else initScraper env st

/-- `login` (`ichancy_api.py` lines 202-246). Returns the new state, the
success flag and the returned dict/body; the source's catch-all `except`
makes it total (it never raises). A decoded body that is not a dict makes
`data.get("result", False)` raise `AttributeError`, which the catch-all
converts to the `{"error": str(e)}` failure shape. -/
def loginRun (env : Env) (st : St) : St × Bool × PyVal :=
  match postStep env (preSt env st) with
  | (st1, .error e) => (st1, false, .dict [("error", .str e)])
  | (st1, .ok resp) =>
    if challengeMark resp.text then
      (st1, false, .dict [("error", .str "captcha_detected")])
    else
      match resp.json with
      | Option.none => (st1, false, .dict [("error", .str "invalid_json")])
      | some data =>
        match data with
        | .dict d =>
          if pyTruthy (dGetD d "result" (.bool false)) then
            ({ saveSession env st1 with isLoggedIn := true }, true, data)
          else
            match notifContent d with
            | .ok _ => (st1, false, data)
            | .error e => (st1, false, .dict [("error", .str e)])
        | _ => (st1, false, .dict [("error", .str "AttributeError")])

/-- The message of the `RuntimeError` raised by `ensure_login` on a failed
login, `data.get("error", data.get("notification", [{}])[0].get("content",
"Login failed"))`. Python evaluates the fallback argument eagerly, so an
exception in the `notification` lookup propagates (modelled by
`Except.error`) even when the `"error"` key is present. -/
def ensureFailMsg (data : PyVal) : Except String String :=
  match data with
  | .dict d =>
    match notifContent d with
    | .error e => .error e
    | .ok c => .ok ("❌ Failed to login: " ++ pyStr (dGetD d "error" c))
  | _ => .error "AttributeError"

/-- `ensure_login` (`ichancy_api.py` lines 248-265), instrumented: the
second component records whether `login` was invoked. Result `.error m`
models a raised exception (the `RuntimeError`, or the exception raised
while building its message). -/
def ensureCount (env : Env) (st : St) : (St × Except String Bool) × Bool :=
  let st1 := preSt env st
  if st1.isLoggedIn && isValidSt env st1 then ((st1, .ok true), false)
  else
    match loginRun env st1 with
    | (st2, succ, data) =>
      if succ then ((st2, .ok true), true)
      else
        match ensureFailMsg data with
        | .ok m => ((st2, .error m), true)
        | .error e => ((st2, .error e), true)

/-- `ensure_login` without the instrumentation. -/
def ensureRun (env : Env) (st : St) : St × Except String Bool :=
  (ensureCount env st).1

/-- The wrapper's status extraction:
`result[0] if isinstance(result, tuple) and len(result) > 0 else 0`. -/
def statusOf : PyVal → PyVal
  | .tuple (x :: _) => x
  | _ => .int 0

/-- The wrapper's data extraction:
`result[1] if isinstance(result, tuple) and len(result) > 1 else {}`. -/
def dataOf : PyVal → PyVal
  | .tuple (_ :: d :: _) => d
  | _ => .dict []

/-- The non-`None` part of the wrapper's failure test
(`ichancy_api.py` line 295): `status != 200 or (isinstance(data, dict) and
not data.get("result", True)) or captcha_like`, where `captcha_like`
scans `str(data).lower()` for the challenge markers. -/
def wrCond (r : PyVal) : Bool :=
  let status := statusOf r
  let data := dataOf r
  (!pyEqInt status 200)
    || (data.isDict && !pyTruthy (dGetD (match data with | .dict d => d | _ => []) "result" (.bool true)))
    || challengeMark (pyStr data)

/-- The wrapper's complete failure classification: the source's
`result is None` branch (line 281) and its classification branch
(line 295) perform the identical invalidate/relogin/re-invoke sequence,
so they are merged into one predicate. -/
def wrFailed (r : PyVal) : Bool :=
  r.isNone || wrCond r

/-- The argument record threaded through a remote operation (each body
reads only the fields its source signature has; `fuel` bounds the model
of the unbounded email-uniqueness loop, see `emailLoop`). -/
structure Args where
  login : String
  pwd : String
  email : String
  playerId : String
  amount : Int
  fuel : Nat
deriving DecidableEq

/-- Plain constructor for `Args`. -/
def mkArgs (login pwd email playerId : String) (amount : Int) (fuel : Nat) : Args :=
  ⟨login, pwd, email, playerId, amount, fuel⟩

/-- A remote operation's body: the function the `with_retry` decorator
wraps. It may raise (`Except.error`), e.g. on a transport fault of its
own POST, which the wrapper does not catch. -/
def Body : Type :=
  Args → Env → St → St × Except String PyVal

/-- `with_retry` (`ichancy_api.py` lines 267-305), instrumented: the
second component counts the invocations of the wrapped body. Ensure a
session (a raised `RuntimeError` propagates), invoke the body once, and
if the result is classified as failed, clear the Redis session, ensure
again and return the second invocation's result unconditionally. -/
def withRetryCount (body : Body) (a : Args) (env : Env) (st : St) :
    (St × Except String PyVal) × Nat :=
  match ensureRun env st with
  | (st1, .error e) => ((st1, .error e), 0)
  | (st1, .ok _) =>
    match body a env st1 with
    | (st2, .error e) => ((st2, .error e), 1)
    | (st2, .ok r1) =>
      if wrFailed r1 then
        let st3 := clearSession st2
        match ensureRun env st3 with
        | (st4, .error e) => ((st4, .error e), 1)
        | (st4, .ok _) => (body a env st4, 2)
      else ((st2, .ok r1), 1)

/-- `with_retry` without the instrumentation. -/
def withRetryF (body : Body) : Body :=
  fun a env st => (withRetryCount body a env st).1

/-- The shared record extraction
`data.get("result", {}).get("records", [])` of the statistics-based
operations. `Except.error` models the `AttributeError` of calling `.get`
on a non-dict; each caller catches it with its own default. -/
def recordsValE (data : PyVal) : Except String PyVal :=
  match data with
  | .dict d =>
    match dGetD d "result" (.dict []) with
    | .dict d2 => .ok (dGetD d2 "records" (.list []))
    | _ => .error "AttributeError"
  | _ => .error "AttributeError"

/-- `for record in records: if record.get(field) == key: return True` —
the scan of `check_player_exists` / `check_email_exists`. A non-dict
record raises `AttributeError`, caught by the body's `except` as `False`,
so the scan stops there. -/
def scanFieldEq (field key : String) : List PyVal → Bool
  | [] => false
  | .dict d :: rest =>
    if pyEqStr (dGetD d field .none) key then true else scanFieldEq field key rest
  | _ :: _ => false

/-- The record scan of `get_player_id_by_login`: on a username match
return `record.get("playerId")` (possibly `None`); any raised exception
is caught by the body's `except` as `None`. -/
def scanPlayerId (login : String) : List PyVal → PyVal
  | [] => .none
  | .dict d :: rest =>
    if pyEqStr (dGetD d "username" .none) login then dGetD d "playerId" .none
    else scanPlayerId login rest
  | _ :: _ => .none

/-- Iterate Python-style over the records value: lists and tuples are
scanned; any other value either yields no matching iteration (empty dict,
empty string) or raises inside the `try`, and every such case collapses
to the surrounding `except` default. -/
def foundFieldEq (field key : String) (data : PyVal) : Bool :=
  match recordsValE data with
  | .error _ => false
  | .ok (.list xs) => scanFieldEq field key xs
  | .ok (.tuple xs) => scanFieldEq field key xs
  | .ok _ => false

/-- The body of `check_email_exists` (`ichancy_api.py` lines 482-499) as
it runs once `self.scraper` exists: POST the filter, scan the records
inside the `try`, default to `False`. This is the form in which the
email-uniqueness loop of `create_player_with_credentials` calls it (there
the surrounding decorated operation has already ensured a scraper). NOTE:
this is the one remote operation the source does not decorate with
`with_retry`; its public entry point, which can therefore still see
`self.scraper is None`, is `checkEmailExistsEntry`. -/
def bodyCheckEmailExists : Body := fun a env st =>
  match postStep env st with
  | (st1, .error e) => (st1, .error e)
  | (st1, .ok resp) =>
    match resp.json with
    | Option.none => (st1, .ok (.bool false))
    | some data => (st1, .ok (.bool (foundFieldEq "email" a.email data)))

/-- The public, undecorated entry point of `check_email_exists`. Because
no `with_retry` wrapper runs `ensure_login` first, `self.scraper` can
still be `None` here, and line 485's `self.scraper.post(...)` — which
sits OUTSIDE the `try` starting at line 491 — then raises
`AttributeError` before any request is issued. The decorated operations
never reach their bodies in that state, so only this entry carries the
guard. -/
def checkEmailExistsEntry : Body := fun a env st =>
  if st.scraperInited then bodyCheckEmailExists a env st
  else (st, .error "AttributeError")

/-- `check_player_exists` (`ichancy_api.py` lines 501-519). -/
def bodyCheckPlayerExists : Body := fun a env st =>
  match postStep env st with
  | (st1, .error e) => (st1, .error e)
  | (st1, .ok resp) =>
    match resp.json with
    | Option.none => (st1, .ok (.bool false))
    | some data => (st1, .ok (.bool (foundFieldEq "username" a.login data)))

/-- `get_player_id_by_login` (`ichancy_api.py` lines 355-373). -/
def bodyGetPlayerIdByLogin : Body := fun a env st =>
  match postStep env st with
  | (st1, .error e) => (st1, .error e)
  | (st1, .ok resp) =>
    match resp.json with
    | Option.none => (st1, .ok .none)
    | some data =>
      match recordsValE data with
      | .error _ => (st1, .ok .none)
      | .ok (.list xs) => (st1, .ok (scanPlayerId a.login xs))
      | .ok (.tuple xs) => (st1, .ok (scanPlayerId a.login xs))
      | .ok _ => (st1, .ok .none)

/-- `get_all_players` (`ichancy_api.py` lines 521-535): the whole body is
inside the `try`, so every parse fault degrades to `[]`. -/
def bodyGetAllPlayers : Body := fun _ env st =>
  match postStep env st with
  | (st1, .error e) => (st1, .error e)
  | (st1, .ok resp) =>
    match resp.json with
    | Option.none => (st1, .ok (.list []))
    | some data =>
      match recordsValE data with
      | .error _ => (st1, .ok (.list []))
      | .ok records => (st1, .ok records)

/-- `deposit_to_player` (`ichancy_api.py` lines 375-396): returns
`(status_code, data)` with `data = {}` on a JSON decode failure. -/
def bodyDeposit : Body := fun _ env st =>
  match postStep env st with
  | (st1, .error e) => (st1, .error e)
  | (st1, .ok resp) =>
    (st1, .ok (.tuple [.int resp.status, (resp.json.getD (.dict []))]))

/-- `withdraw_from_player` (`ichancy_api.py` lines 398-419): identical
request/response shape to deposit. -/
def bodyWithdraw : Body := fun _ env st =>
  match postStep env st with
  | (st1, .error e) => (st1, .error e)
  | (st1, .ok resp) =>
    (st1, .ok (.tuple [.int resp.status, (resp.json.getD (.dict []))]))

/-- Python `float(x)` narrowed to the values this program can feed it:
ints and bools convert, strings parse as integer literals
(decimal-point parsing is not modelled), everything else raises. -/
def pyFloatE : PyVal → Except String Int
  | .int n => .ok n
  | .bool b => .ok (if b then 1 else 0)
  | .str s =>
    match s.toInt? with
    | some n => .ok n
    | Option.none => .error "ValueError"
  | _ => .error "TypeError"

/-- The balance computation of `get_player_balance` (lines 439-443),
which runs OUTSIDE the `try`: `results = data.get("result", [])`, then
`results[0].get("balance", 0) if isinstance(results, list) and results
else 0`, then `float(balance)`. Raises (uncaught) when `data` is not a
dict, when a non-empty result list starts with a non-dict, or when the
balance value cannot be converted. -/
def balanceE (data : PyVal) : Except String Int :=
  match data with
  | .dict d =>
    match dGetD d "result" (.list []) with
    | .list ((.dict fd) :: _) => pyFloatE (dGetD fd "balance" (.int 0))
    | .list (_ :: _) => .error "AttributeError"
    | _ => .ok 0
  | _ => .error "AttributeError"

/-- `get_player_balance` (`ichancy_api.py` lines 421-443): only
`resp.json()` is guarded by the `try`; a decode failure returns
`(status, {}, 0.0)` but a shape fault in `balanceE` propagates. -/
def bodyGetBalance : Body := fun _ env st =>
  match postStep env st with
  | (st1, .error e) => (st1, .error e)
  | (st1, .ok resp) =>
    match resp.json with
    | Option.none => (st1, .ok (.tuple [.int resp.status, .dict [], .int 0]))
    | some data =>
      match balanceE data with
      | .error e => (st1, .error e)
      | .ok b => (st1, .ok (.tuple [.int resp.status, data, .int b]))

/-- The email-uniqueness loop of `create_player_with_credentials`
(`ichancy_api.py` lines 454-457): `while self.check_email_exists(email):`
regenerate `f"{login}_{randint(1000,9999)}@TSA.com"`. The source loop is
UNBOUNDED; `fuel` is a model artifact and `.error "fuel"` marks a run
that did not finish within it (no source behaviour corresponds to it).
The probe is the undecorated `check_email_exists`, as in the source. -/
def emailLoop (env : Env) (login : String) : Nat → St → String → St × Except String String
  | 0, st, _ => (st, .error "fuel")
  | n + 1, st, email =>
    match bodyCheckEmailExists (mkArgs login "" email "" 0 0) env st with
    | (st1, .error e) => (st1, .error e)
    | (st1, .ok r) =>
      if pyTruthy r then
        let newEmail := login ++ "_" ++ toString (env.randInt st1.randIdx) ++ "@TSA.com"
        emailLoop env login n { st1 with randIdx := st1.randIdx + 1 } newEmail
      else (st1, .ok email)

/-- `create_player_with_credentials` (`ichancy_api.py` lines 445-480):
run the email-uniqueness loop, POST the registration, decode the body
with `{}` as the decode-failure default, then resolve the player id via
the DECORATED `get_player_id_by_login`, and return
`(status_code, data, player_id, email)`. -/
def bodyCreatePlayerWithCredentials : Body := fun a env st =>
  match emailLoop env a.login a.fuel st (a.login ++ "@TSA.com") with
  | (st1, .error e) => (st1, .error e)
  | (st1, .ok email) =>
    match postStep env st1 with
    | (st2, .error e) => (st2, .error e)
    | (st2, .ok resp) =>
      let data := resp.json.getD (.dict [])
      match withRetryF bodyGetPlayerIdByLogin
          { a with login := a.login } env st2 with
      | (st3, .error e) => (st3, .error e)
      | (st3, .ok pid) =>
        (st3, .ok (.tuple [.int resp.status, data, pid, .str email]))

/-- `create_player` (`ichancy_api.py` lines 323-353): draw a random
login/password pair, POST the registration, decode with default `{}`,
resolve the player id via the DECORATED `get_player_id_by_login`, and
return `(status_code, data, login, pwd, player_id)`. -/
def bodyCreatePlayer : Body := fun a env st =>
  let (login, pwd) := env.randCred st.randIdx
  let st0 := { st with randIdx := st.randIdx + 1 }
  match postStep env st0 with
  | (st1, .error e) => (st1, .error e)
  | (st1, .ok resp) =>
    let data := resp.json.getD (.dict [])
    match withRetryF bodyGetPlayerIdByLogin
        { a with login := login } env st1 with
    | (st2, .error e) => (st2, .error e)
    | (st2, .ok pid) =>
      (st2, .ok (.tuple [.int resp.status, data, .str login, .str pwd, pid]))

/-- The Remote Operation Set (`ichancy_api.py` lines 323-535). -/
inductive RemoteOp where
  | createPlayer
  | getPlayerIdByLogin
  | depositToPlayer
  | withdrawFromPlayer
  | getPlayerBalance
  | createPlayerWithCredentials
  | checkEmailExists
  | checkPlayerExists
  | getAllPlayers
deriving DecidableEq

/-- Each operation's undecorated body. -/
def opBody : RemoteOp → Body
  | .createPlayer => bodyCreatePlayer
  | .getPlayerIdByLogin => bodyGetPlayerIdByLogin
  | .depositToPlayer => bodyDeposit
  | .withdrawFromPlayer => bodyWithdraw
  | .getPlayerBalance => bodyGetBalance
  | .createPlayerWithCredentials => bodyCreatePlayerWithCredentials
  | .checkEmailExists => bodyCheckEmailExists
  | .checkPlayerExists => bodyCheckPlayerExists
  | .getAllPlayers => bodyGetAllPlayers

/-- Each operation's public entry point, exactly as decorated in the
source: every operation carries `@with_retry` EXCEPT `check_email_exists`
(lines 482-499), which is defined bare. -/
def opEntry : RemoteOp → Body
  | .checkEmailExists => checkEmailExistsEntry
  | o => withRetryF (opBody o)

/-- Candidate names probed by `generate_username`
(`ichancy_create_account.py` lines 19-25): the prefixed base for `i = 0`,
then `f"{base}_{_random_suffix()}"` with a fresh random suffix per later
iteration (the suffix drawn at iteration `i` is `suffs i`). -/
def genCand (base : String) (suffs : Nat → String) : Nat → String
  | 0 => base
  | i + 1 => base ++ "_" ++ suffs (i + 1)

/-- The probe loop of `generate_username`: `remaining` iterations left,
`i` the current index. Returns the result together with the number of
existence probes performed. -/
def genAux (existsQ : String → Bool) (cand : Nat → String) :
    Nat → Nat → (Except String String) × Nat
  | _, 0 => (.error "❌ اسم المستخدم غير متاح، جرّب اسمًا آخر", 0)
  | i, n + 1 =>
    if existsQ (cand i) then
      let (r, c) := genAux existsQ cand (i + 1) n
      (r, c + 1)
    else (.ok (cand i), 1)

/-- `generate_username` (`ichancy_create_account.py` lines 19-25):
`base = f"ZEUS_{raw_username}"`, probe up to 6 candidates against the
existence check (`api.check_player_exists`, abstracted as the oracle
`existsQ`), return the first free one or raise the (Arabic) "username
unavailable" `ValueError`. -/
def generate_username (existsQ : String → Bool) (suffs : Nat → String)
    (raw : String) : (Except String String) × Nat :=
  genAux existsQ (genCand ("ZEUS_" ++ raw) suffs) 0 6

/-- `Except.ok`-discriminator: `true` on a returned value, `false` on a
modelled raise. -/
def exOk {α : Type} : Except String α → Bool
  | .ok _ => true
  | .error _ => false

/-- Claim C2's failure classification, following the claim's words: the
result is entirely absent, OR its embedded status code is not 200, OR the
decoded body is a dict whose `result` flag is EXPLICITLY FALSE, OR the
rendered result text contains a challenge marker. -/
def claimFailedB (r : PyVal) : Bool :=
  r.isNone
    || (!pyEqInt (statusOf r) 200)
    || ((dataOf r).isDict
          && match (match dataOf r with | .dict d => dLookup d "result" | _ => Option.none) with
             | some (.bool false) => true
             | _ => false)
    || challengeMark (pyStr (dataOf r))

/-- Claim C2 amended: `result` flag explicitly false is widened to
`result` key present with a FALSY value (Python truthiness), exactly the
source's `not data.get("result", True)`. -/
def claimFailedAmendedB (r : PyVal) : Bool :=
  r.isNone
    || (!pyEqInt (statusOf r) 200)
    || ((dataOf r).isDict
          && !pyTruthy (dGetD (match dataOf r with | .dict d => d | _ => []) "result" (.bool true)))
    || challengeMark (pyStr (dataOf r))

/-! Concrete fixtures used by witnesses and counterexamples. -/

/-- Accumulating decimal parser over characters. -/
def digitsToNatAux : Nat → List Char → Option Nat
  | acc, [] => some acc
  | acc, c :: cs =>
    if c.isDigit then digitsToNatAux (acc * 10 + (c.toNat - 48)) cs else Option.none

/-- Concrete timestamp parser for the fixtures: accepts non-empty decimal
strings (the image of `fmtTsFix` on non-negative instants), rejects
everything else — in particular the empty string, as
`datetime.fromisoformat("")` raises. -/
def parseTsFix (s : String) : Option Int :=
  match s.data with
  | [] => Option.none
  | cs => (digitsToNatAux 0 cs).map (fun n => (n : Int))

/-- Concrete timestamp serialiser for the fixtures. -/
def fmtTsFix (n : Int) : String := toString n

/-- Process-start state: no scraper, not logged in, empty store. -/
def stInit : St := ⟨false, false, Option.none, Option.none, Option.none, 0, 0⟩

/-- An authenticated state whose stored record is valid at instant 50. -/
def stAuth : St := ⟨true, true, some "c", some "4000", some "0", 0, 0⟩

/-- Fixture environment around a given HTTP stream: instant 50,
30-minute session duration, 2-hour maximum session age. -/
def mkEnv (h : Nat → Except String Response) : Env :=
  ⟨h, fun _ => true, "cb", fmtTsFix, parseTsFix, 50, 30, 2,
    fun _ => ("u1", "p1"), fun _ => 1000⟩

/-- Every POST answers 200 with a body that fails to decode. -/
def envJsonFail : Env := mkEnv (fun _ => .ok ⟨200, "", Option.none⟩)

/-- Every POST answers with a challenge page. -/
def envCaptcha : Env := mkEnv (fun _ => .ok ⟨403, "Attention Required! CAPTCHA", Option.none⟩)

/-- Every POST answers 200 with `{"result": true}`. -/
def envLoginOk : Env := mkEnv (fun _ => .ok ⟨200, "", some (.dict [("result", .bool true)])⟩)

/-- Every POST answers 200 with a body that decodes to a top-level JSON
array (a dict-shaped body is expected). -/
def envTopList : Env := mkEnv (fun _ => .ok ⟨200, "", some (.list [])⟩)

/-- Every POST answers with a transport fault. -/
def envNetDown : Env := mkEnv (fun _ => .error "ConnectionError")

/-- Blank argument record. -/
def aEmpty : Args := mkArgs "" "" "" "" 0 0

/-- A state whose scraper exists but which is not authenticated and has
no stored session — e.g. the state left behind by a failed login
attempt. -/
def stScraperOnly : St := ⟨true, false, Option.none, Option.none, Option.none, 0, 0⟩

/-- C10 fixture: the base login used in the email-loop analysis. -/
def c10Login : String := "bob"

/-- C10 fixture: the successive `random.randint(1000, 9999)` draws served
by the all-taken environment. -/
def c10Rand : Nat → Int := fun k => 1000 + ((k : Int) % 9000)

/-- The candidate email probed at step `k` of the email-uniqueness loop:
`bob@TSA.com` first, then `bob_<k-th randint draw>@TSA.com`. -/
def c10CandAt : Nat → String
  | 0 => c10Login ++ "@TSA.com"
  | k + 1 => c10Login ++ "_" ++ toString (c10Rand k) ++ "@TSA.com"

/-- A statistics response whose records contain exactly the email `e`. -/
def respWithEmail (e : String) : Response :=
  ⟨200, "", some (.dict [("result", .dict [("records",
      .list [.dict [("email", .str e)]])])])⟩

/-- C10 fixture: an environment whose `k`-th POST reports the `k`-th
probed candidate email as existing — every probe finds its candidate
taken. -/
def envEmailsAllTaken : Env :=
  ⟨fun k => .ok (respWithEmail (c10CandAt k)), fun _ => true, "cb", fmtTsFix,
    parseTsFix, 50, 30, 2, fun _ => ("u1", "p1"), c10Rand⟩

/-- C4: for every stored Session Record and every instant `now`, the
session-validity check `_is_session_valid` returns true if and only if
both timestamp fields are present and parseable, `now < expires_at`, and
`now - last_login_at < max_session_age`; absence or unparseability of
either field yields `false` rather than an exception (the model is a
total `Bool`-valued function, as the source catches parse errors). The
hypothesis records that the ISO parser rejects the empty string, which
the source short-circuits on via Python falsiness. -/
theorem c4_session_validity (parse : String → Option Int)
    (hp : parse "" = Option.none) (ageH : Int) (e l : Option String) (now : Int) :
    isSessionValid parse ageH e l now = true ↔
      ∃ es ls te tl, e = some es ∧ l = some ls ∧ parse es = some te ∧
        parse ls = some tl ∧ now < te ∧ now - tl < ageH * 3600 := by
  constructor
  · intro h
    match e, l with
    | Option.none, _ => simp [isSessionValid] at h
    | some es, Option.none => simp [isSessionValid] at h
    | some es, some ls =>
      simp only [isSessionValid] at h
      split at h
      · cases h
      · split at h
        case _ te tl h2 h3 =>
          simp only [Bool.and_eq_true, decide_eq_true_eq] at h
          exact ⟨es, ls, te, tl, rfl, rfl, h2, h3, h.1, h.2⟩
        case _ => cases h
  · rintro ⟨es, ls, te, tl, rfl, rfl, hpe, hpl, h1, h2⟩
    have hes : ¬ es = "" := fun hh => by rw [hh, hp] at hpe; cases hpe
    have hls : ¬ ls = "" := fun hh => by rw [hh, hp] at hpl; cases hpl
    simp only [isSessionValid]
    rw [if_neg (by simp [hes, hls])]
    rw [hpe, hpl]
    simp [h1, h2]

/-- Witness for C4 at a concrete record valid at instant 7. -/
theorem c4_session_validity_witness :
    isSessionValid parseTsFix 1 (some "10") (some "5") 7 = true :=
  (c4_session_validity parseTsFix rfl 1 (some "10") (some "5") 7).mpr
    ⟨"10", "5", 10, 5, rfl, rfl, rfl, rfl, by decide, by decide⟩

/-- C6: every Session Record persisted by a successful `login` has
`expires_at = now + SESSION_DURATION_MIN minutes` and `last_login_at =
now`, both from the same write-instant `now`, and therefore (for positive
session duration and positive maximum session age, with a timestamp
serialisation the parser inverts on non-empty strings) satisfies
`_is_session_valid` at the instant of writing. -/
theorem c6_login_writes_valid_record (env : Env) (st st2 : St) (data : PyVal)
    (hd : 0 < env.durationMin) (ha : 0 < env.maxAgeHours)
    (hr1 : env.tsParse (env.tsFormat (env.now + env.durationMin * 60)) =
      some (env.now + env.durationMin * 60))
    (hr2 : env.tsParse (env.tsFormat env.now) = some env.now)
    (hne1 : env.tsFormat (env.now + env.durationMin * 60) ≠ "")
    (hne2 : env.tsFormat env.now ≠ "")
    (hL : loginRun env st = (st2, true, data)) :
    st2.rExpiry = some (env.tsFormat (env.now + env.durationMin * 60)) ∧
    st2.rLastLogin = some (env.tsFormat env.now) ∧
    isValidSt env st2 = true := by
  unfold loginRun postStep at hL
  repeat' split at hL
  all_goals simp only [Prod.mk.injEq] at hL
  all_goals try exact absurd hL.2.1 (by decide)
  obtain ⟨h1, _, _⟩ := hL
  subst h1
  refine ⟨rfl, rfl, ?_⟩
  simp only [isValidSt, saveSession, isSessionValid]
  rw [if_neg (by simp [hne1, hne2])]
  rw [hr1, hr2]
  simp only [Bool.and_eq_true, decide_eq_true_eq]
  omega

/-- Witness for C6: a concrete successful login at instant 50 with the
default 30-minute duration and 2-hour maximum age. -/
theorem c6_login_writes_valid_record_witness :
    isValidSt envLoginOk (loginRun envLoginOk stInit).1 = true :=
  (c6_login_writes_valid_record envLoginOk stInit (loginRun envLoginOk stInit).1
    (loginRun envLoginOk stInit).2.2 (by decide) (by decide) (by decide) (by decide)
    (by decide) (by decide) rfl).2.2

/-- A process-start state (no scraper, not logged in) whose stored
Session Record is restorable and valid at instant 50. -/
def stRestorable : St := ⟨false, false, some "c", some "4000", some "0", 0, 0⟩

/-- C5 counterexample: in a state whose in-memory flag is NOT
authenticated (so, per the claim, "every other state" in which `ensure()`
must trigger a fresh login), `ensure_login` restores the valid stored
record via `_init_scraper` and returns success WITHOUT invoking `login`
(the environment's every request fails, so any login attempt would show).
The claim's "in every other state it triggers a fresh login" is false. -/
theorem c5_ensure_counterexample :
    stRestorable.isLoggedIn = false ∧
    (ensureCount envNetDown stRestorable).2 = false ∧
    (ensureCount envNetDown stRestorable).1.2 = Except.ok true :=
  ⟨rfl, rfl, rfl⟩

/-- C5 amended: `ensure_login` is a no-op returning success when, after
the lazy `_init_scraper` step (which may RESTORE a valid stored session
and authenticate without any login), the in-memory state is authenticated
and the validity invariant holds; in every other state it invokes
`login`, and when that login fails it raises (models as `.error`) rather
than returning a failure value. -/
theorem c5_ensure_amended (env : Env) (st : St) :
    ((preSt env st).isLoggedIn = true →
     isValidSt env (preSt env st) = true →
     ensureCount env st =
       (((preSt env st), Except.ok true), false))
  ∧ (¬((preSt env st).isLoggedIn = true ∧
        isValidSt env (preSt env st) = true) →
     (ensureCount env st).2 = true ∧
     ((loginRun env (preSt env st)).2.1 = false →
      ∃ m, (ensureCount env st).1.2 = Except.error m)) := by
  constructor
  · intro h1 h2
    simp only [ensureCount]
    rw [if_pos (by simp [h1, h2])]
  · intro hno
    simp only [ensureCount]
    rw [if_neg (by simpa [Bool.and_eq_true] using hno)]
    rcases hL : loginRun env (preSt env st)
      with ⟨st2, succ, data⟩
    constructor
    · cases succ
      · cases hE : ensureFailMsg data <;> simp [hE]
      · simp
    · intro hf
      have hf2 : succ = false := hf
      subst hf2
      cases hE : ensureFailMsg data with
      | ok m => exact ⟨m, by simp [hE]⟩
      | error e => exact ⟨e, by simp [hE]⟩

/-- Witness for C5 (amended), failing-login branch: at process start with
undecodable login responses, `ensure_login` invokes `login` and raises. -/
theorem c5_ensure_amended_witness :
    (ensureCount envJsonFail stInit).2 = true ∧
    ∃ m, (ensureCount envJsonFail stInit).1.2 = Except.error m := by
  have h := (c5_ensure_amended envJsonFail stInit).2 (by decide)
  exact ⟨h.1, h.2 (by decide)⟩

/-- C1: for every wrapped operation and every single call, `with_retry`
invokes the wrapped body at most twice; a second invocation happens only
after the first returned result was classified as failed, and the second
invocation's outcome is returned unconditionally (the returned pair IS
the second invocation's, with no classification applied to it and no
third invocation); a first result classified as not failed is returned
as-is with exactly one invocation. -/
theorem c1_retry_bounded (b : Body) (a : Args) (env : Env) (st : St) :
    (withRetryCount b a env st).2 ≤ 2
  ∧ ((withRetryCount b a env st).2 = 2 →
      (∃ st4, (withRetryCount b a env st).1 = b a env st4) ∧
      (∃ st2 r1, b a env (ensureRun env st).1 = (st2, Except.ok r1) ∧ wrFailed r1 = true))
  ∧ (∀ st2 r1, (ensureRun env st).2 = Except.ok true →
      b a env (ensureRun env st).1 = (st2, Except.ok r1) → wrFailed r1 = false →
      (withRetryCount b a env st).1 = (st2, Except.ok r1) ∧
      (withRetryCount b a env st).2 = 1) := by
  rcases hE : ensureRun env st with ⟨st1, e1⟩
  cases e1 with
  | error e =>
    refine ⟨by simp [withRetryCount, hE], ?_, ?_⟩
    · intro h2
      simp [withRetryCount, hE] at h2
    · intro st2 r1 hok hb
      simp at hok
  | ok bv =>
    rcases hB : b a env st1 with ⟨st2, r⟩
    cases r with
    | error e =>
      refine ⟨by simp [withRetryCount, hE, hB], ?_, ?_⟩
      · intro h2
        simp [withRetryCount, hE, hB] at h2
      · intro st2' r1 hok hb
        simp at hb
    | ok r1 =>
      by_cases hw : wrFailed r1 = true
      · rcases hE2 : ensureRun env (clearSession st2) with ⟨st3, e2⟩
        cases e2 with
        | error e =>
          refine ⟨by simp [withRetryCount, hE, hB, hw, hE2], ?_, ?_⟩
          · intro h2
            simp [withRetryCount, hE, hB, hw, hE2] at h2
          · intro st2' r1' hok hb hw'
            simp only [Prod.mk.injEq, Except.ok.injEq] at hb
            rw [← hb.2, hw] at hw'
            cases hw'
        | ok bv2 =>
          refine ⟨by simp [withRetryCount, hE, hB, hw, hE2], ?_, ?_⟩
          · intro _
            constructor
            · refine ⟨st3, ?_⟩
              simp [withRetryCount, hE, hB, hw, hE2]
            · exact ⟨st2, r1, rfl, hw⟩
          · intro st2' r1' hok hb hw'
            simp only [Prod.mk.injEq, Except.ok.injEq] at hb
            rw [← hb.2, hw] at hw'
            cases hw'
      · rw [Bool.not_eq_true] at hw
        refine ⟨by simp [withRetryCount, hE, hB, hw], ?_, ?_⟩
        · intro h2
          simp [withRetryCount, hE, hB, hw] at h2
        · intro st2' r1' hok hb hw'
          simp only [Prod.mk.injEq, Except.ok.injEq] at hb
          rw [← hb.1, ← hb.2]
          simp [withRetryCount, hE, hB, hw]

/-- Witness for C1: a deposit answered 200/`{"result": true}` from an
authenticated state is returned as-is with exactly one invocation. -/
theorem c1_retry_bounded_witness :
    (withRetryCount bodyDeposit aEmpty envLoginOk stAuth).1 =
      ({ stAuth with httpIdx := 1 },
        Except.ok (PyVal.tuple [PyVal.int 200, PyVal.dict [("result", PyVal.bool true)]])) ∧
    (withRetryCount bodyDeposit aEmpty envLoginOk stAuth).2 = 1 :=
  (c1_retry_bounded bodyDeposit aEmpty envLoginOk stAuth).2.2
    { stAuth with httpIdx := 1 }
    (PyVal.tuple [PyVal.int 200, PyVal.dict [("result", PyVal.bool true)]])
    rfl rfl (by decide)

/-- C2 counterexample: the first-invocation result
`(200, {"result": None})` — an HTTP 200 whose body's `result` key is
`None`, not an explicit `false` — is classified as FAILED by the wrapper
(`not data.get("result", True)` is true for any falsy value), while the
claim's disjunction (absent / status not 200 / `result` flag explicitly
false / challenge marker) classifies it as not failed. The claimed
"if and only if" is therefore false at this input. -/
theorem c2_classification_counterexample :
    wrFailed (PyVal.tuple [PyVal.int 200, PyVal.dict [("result", PyVal.none)]]) = true ∧
    claimFailedB (PyVal.tuple [PyVal.int 200, PyVal.dict [("result", PyVal.none)]]) = false :=
  ⟨rfl, rfl⟩

/-- C2 amended: the wrapper classifies a first-invocation result as
failed if and only if the result is entirely absent (`None`), OR its
embedded status code (first tuple component, `0` for non-tuples) is not
200, OR the data component is a dict whose `result` key is present with a
FALSY value (Python truthiness: `false`, `None`, `0`, `""`, empty
containers), OR `str(data).lower()` contains a `"captcha"` or
`"cloudflare"` substring — the substring condition triggering failure
regardless of the HTTP status, and no other result shape classified as
failed. -/
theorem c2_classification_amended (r : PyVal) :
    wrFailed r = claimFailedAmendedB r := by
  cases r <;> rfl

/-- C3 counterexample: `check_email_exists` is NOT intercepted by the
ensure-invoke-classify-retry policy. In a state where the scraper exists
but no session does (the state a failed login leaves behind), with
undecodable 200-responses, the actual entry point answers `False`
directly with a single POST — no session is ensured first — while the
same body under `with_retry` never reaches it: the leading
`ensure_login` raises its login failure. The two disagree, so the claim
that every remote operation carries the wrapper is false at this
operation. (At process start proper the undecorated call differs even
more sharply: `self.scraper` is still `None` and it raises
`AttributeError`, see `checkEmailExistsEntry`.) -/
theorem c3_no_retry_on_check_email_exists :
    (opEntry RemoteOp.checkEmailExists aEmpty envJsonFail stScraperOnly).2 =
      Except.ok (PyVal.bool false) ∧
    (withRetryF (opBody RemoteOp.checkEmailExists) aEmpty envJsonFail stScraperOnly).2 =
      Except.error "❌ Failed to login: invalid_json" ∧
    (Except.ok (PyVal.bool false) : Except String PyVal) ≠
      Except.error "❌ Failed to login: invalid_json" :=
  ⟨rfl, rfl, by simp⟩

/-- C3 amended: every operation of the Remote Operation Set EXCEPT
`check_email_exists` is exactly its body under the `with_retry`
interception; `check_email_exists` alone is uninterposed: its entry
point is its bare body whenever the scraper exists, and in the
scraper-less state — reachable precisely because nothing ensures a
session first — it raises `AttributeError` at the POST. -/
theorem c3_retry_applied_except_email :
    (∀ o : RemoteOp, o ≠ RemoteOp.checkEmailExists →
      opEntry o = withRetryF (opBody o)) ∧
    opEntry RemoteOp.checkEmailExists = checkEmailExistsEntry ∧
    (∀ a env st, st.scraperInited = true →
      checkEmailExistsEntry a env st = bodyCheckEmailExists a env st) ∧
    (∀ a env st, st.scraperInited = false →
      checkEmailExistsEntry a env st = (st, Except.error "AttributeError")) := by
  refine ⟨?_, rfl, ?_, ?_⟩
  · intro o h
    cases o <;> first | rfl | exact absurd rfl h
  · intro a env st h
    simp [checkEmailExistsEntry, h]
  · intro a env st h
    simp [checkEmailExistsEntry, h]

/-- Witness for C3 (amended): the deposit operation is the wrapped form
of its body; the email check's entry is its bare body once the scraper
exists, and raises in the scraper-less start state. -/
theorem c3_retry_applied_except_email_witness :
    opEntry RemoteOp.depositToPlayer = withRetryF (opBody RemoteOp.depositToPlayer) ∧
    checkEmailExistsEntry aEmpty envJsonFail stScraperOnly =
      bodyCheckEmailExists aEmpty envJsonFail stScraperOnly ∧
    checkEmailExistsEntry aEmpty envJsonFail stInit =
      (stInit, Except.error "AttributeError") :=
  ⟨c3_retry_applied_except_email.1 RemoteOp.depositToPlayer (by decide),
   c3_retry_applied_except_email.2.2.1 aEmpty envJsonFail stScraperOnly rfl,
   c3_retry_applied_except_email.2.2.2 aEmpty envJsonFail stInit rfl⟩

/-- C7 counterexample: a response whose body decodes to a top-level JSON
array (a shape missing the expected fields) makes `get_player_balance`
RAISE — `data.get("result", [])` runs outside the `try` and hits
`AttributeError` — instead of returning its safe default `0.0`. The
claim's "each remote operation returns its safe default instead of
raising" is false for this operation at this input. -/
theorem c7_balance_counterexample :
    (bodyGetBalance aEmpty envTopList stInit).2 = Except.error "AttributeError" ∧
    exOk (bodyGetBalance aEmpty envTopList stInit).2 = false :=
  ⟨rfl, rfl⟩

/-- C7 amended: on a JSON-decode failure every operation degrades to its
safe default (`False` / `False` / `None` / `[]`, and `(status, {}, 0.0)`
for get-balance); the two existence checks, player-id resolution and
list-all never raise on ANY decoded body shape; get-balance returns
balance `0.0` when the decoded body is a dict whose `result` key is
absent or an empty list, but can raise on decoded bodies that are not
dicts (or whose non-empty result list starts with a non-dict). -/
theorem c7_parse_faults_degrade (a : Args) (env : Env) (st : St) (resp : Response)
    (h : env.http st.httpIdx = Except.ok resp) :
    (resp.json = Option.none →
      (bodyCheckEmailExists a env st).2 = Except.ok (PyVal.bool false) ∧
      (bodyCheckPlayerExists a env st).2 = Except.ok (PyVal.bool false) ∧
      (bodyGetPlayerIdByLogin a env st).2 = Except.ok PyVal.none ∧
      (bodyGetAllPlayers a env st).2 = Except.ok (PyVal.list []) ∧
      (bodyGetBalance a env st).2 =
        Except.ok (PyVal.tuple [PyVal.int resp.status, PyVal.dict [], PyVal.int 0]))
  ∧ (∀ v, resp.json = some v →
      exOk (bodyCheckEmailExists a env st).2 = true ∧
      exOk (bodyCheckPlayerExists a env st).2 = true ∧
      exOk (bodyGetPlayerIdByLogin a env st).2 = true ∧
      exOk (bodyGetAllPlayers a env st).2 = true)
  ∧ (∀ d, resp.json = some (PyVal.dict d) →
      dLookup d "result" = Option.none ∨ dLookup d "result" = some (PyVal.list []) →
      (bodyGetBalance a env st).2 =
        Except.ok (PyVal.tuple [PyVal.int resp.status, PyVal.dict d, PyVal.int 0])) := by
  refine ⟨?_, ?_, ?_⟩
  · intro hj
    refine ⟨?_, ?_, ?_, ?_, ?_⟩ <;>
      simp [bodyCheckEmailExists, bodyCheckPlayerExists, bodyGetPlayerIdByLogin,
        bodyGetAllPlayers, bodyGetBalance, postStep, h, hj]
  · intro v hj
    refine ⟨?_, ?_, ?_, ?_⟩ <;>
      · simp only [bodyCheckEmailExists, bodyCheckPlayerExists, bodyGetPlayerIdByLogin,
          bodyGetAllPlayers, postStep, h, hj]
        (try split) <;> simp [exOk]
  · intro d hj hres
    rcases hres with h1 | h1 <;>
      simp [bodyGetBalance, postStep, h, hj, balanceE, dGetD, h1]

/-- Witness for C7 (amended): undecodable 200-responses yield the five
safe defaults. -/
theorem c7_parse_faults_degrade_witness :
    (bodyCheckEmailExists aEmpty envJsonFail stInit).2 = Except.ok (PyVal.bool false) ∧
    (bodyCheckPlayerExists aEmpty envJsonFail stInit).2 = Except.ok (PyVal.bool false) ∧
    (bodyGetPlayerIdByLogin aEmpty envJsonFail stInit).2 = Except.ok PyVal.none ∧
    (bodyGetAllPlayers aEmpty envJsonFail stInit).2 = Except.ok (PyVal.list []) ∧
    (bodyGetBalance aEmpty envJsonFail stInit).2 =
      Except.ok (PyVal.tuple [PyVal.int 200, PyVal.dict [], PyVal.int 0]) :=
  (c7_parse_faults_degrade aEmpty envJsonFail stInit ⟨200, "", Option.none⟩ rfl).1 rfl

/-- C8 counterexample: on challenge-page detection `login` tags the
failure `"captcha_detected"` (and on an undecodable body
`"invalid_json"`), not `"challenge_detected"` (`"invalid_response"`) as
the claim states; so the claim's tag names are false on the code. -/
theorem c8_login_tags_counterexample :
    (loginRun envCaptcha stInit).2.1 = false ∧
    (loginRun envCaptcha stInit).2.2 = PyVal.dict [("error", PyVal.str "captcha_detected")] ∧
    (loginRun envCaptcha stInit).2.2 ≠ PyVal.dict [("error", PyVal.str "challenge_detected")] := by
  refine ⟨rfl, rfl, fun h => ?_⟩
  have h0 : (loginRun envCaptcha stInit).2.2 =
      PyVal.dict [("error", PyVal.str "captcha_detected")] := rfl
  rw [h0] at h
  simp at h

/-- C8 amended: `login` returns a failure value (never raises — the model
is a total function, matching the source's catch-all `except`): tagged
`"captcha_detected"` when the response text is detected as a challenge
page, tagged `"invalid_json"` when the body fails to decode, and carrying
the fault description `str(e)` on a transport-level exception; in each
case exactly one POST is issued (no internal retry — the request counter
advances by one). -/
theorem c8_login_failure_values (env : Env) (st : St) :
    (∀ e, env.http (preSt env st).httpIdx = Except.error e →
      loginRun env st =
        ({ preSt env st with httpIdx := (preSt env st).httpIdx + 1 },
          false, PyVal.dict [("error", PyVal.str e)]))
  ∧ (∀ resp, env.http (preSt env st).httpIdx = Except.ok resp →
      challengeMark resp.text = true →
      loginRun env st =
        ({ preSt env st with httpIdx := (preSt env st).httpIdx + 1 },
          false, PyVal.dict [("error", PyVal.str "captcha_detected")]))
  ∧ (∀ resp, env.http (preSt env st).httpIdx = Except.ok resp →
      challengeMark resp.text = false → resp.json = Option.none →
      loginRun env st =
        ({ preSt env st with httpIdx := (preSt env st).httpIdx + 1 },
          false, PyVal.dict [("error", PyVal.str "invalid_json")])) := by
  refine ⟨?_, ?_, ?_⟩
  · intro e h
    simp [loginRun, postStep, h]
  · intro resp h hc
    simp [loginRun, postStep, h, hc]
  · intro resp h hc hj
    simp [loginRun, postStep, h, hc, hj]

/-- Witness for C8 (amended): the three failure shapes at process start
under concrete challenge, undecodable and transport-fault environments. -/
theorem c8_login_failure_values_witness :
    (loginRun envCaptcha stInit).2.2 = PyVal.dict [("error", PyVal.str "captcha_detected")] ∧
    (loginRun envJsonFail stInit).2.2 = PyVal.dict [("error", PyVal.str "invalid_json")] ∧
    (loginRun envNetDown stInit).2.2 = PyVal.dict [("error", PyVal.str "ConnectionError")] := by
  refine ⟨?_, ?_, ?_⟩
  · rw [(c8_login_failure_values envCaptcha stInit).2.1
      ⟨403, "Attention Required! CAPTCHA", Option.none⟩ rfl (by decide)]
  · rw [(c8_login_failure_values envJsonFail stInit).2.2
      ⟨200, "", Option.none⟩ rfl (by decide) rfl]
  · rw [(c8_login_failure_values envNetDown stInit).1 "ConnectionError" rfl]

/-- Behaviour of the probe loop `genAux`: with `n` iterations left at
index `i` it probes at most `n` candidates; if all `n` remaining
candidates exist it raises the unavailable error after exactly `n`
probes; the first non-existing candidate (preceded by existing ones) is
returned after exactly its index-plus-one probes. -/
theorem genAux_spec (existsQ : String → Bool) (cand : Nat → String) :
    ∀ n i,
    ((genAux existsQ cand i n).2 ≤ n)
  ∧ ((∀ k, k < n → existsQ (cand (i + k)) = true) →
      genAux existsQ cand i n = (.error "❌ اسم المستخدم غير متاح، جرّب اسمًا آخر", n))
  ∧ (∀ k, k < n → (∀ j, j < k → existsQ (cand (i + j)) = true) →
      existsQ (cand (i + k)) = false →
      genAux existsQ cand i n = (.ok (cand (i + k)), k + 1)) := by
  intro n
  induction n with
  | zero =>
    intro i
    refine ⟨Nat.le_refl 0, fun _ => rfl, fun k hk => absurd hk (by omega)⟩
  | succ n ih =>
    intro i
    by_cases hq : existsQ (cand i) = true
    · rcases hG : genAux existsQ cand (i + 1) n with ⟨r, c⟩
      have hstep : genAux existsQ cand i (n + 1) = (r, c + 1) := by
        simp [genAux, hq, hG]
      refine ⟨?_, ?_, ?_⟩
      · rw [hstep]
        have := (ih (i + 1)).1
        rw [hG] at this
        omega
      · intro hall
        have h2 : ∀ k, k < n → existsQ (cand (i + 1 + k)) = true := by
          intro k hk
          have := hall (k + 1) (by omega)
          rwa [show i + (k + 1) = i + 1 + k by omega] at this
        have := (ih (i + 1)).2.1 h2
        rw [hG] at this
        rw [hstep]
        rw [Prod.mk.injEq] at this
        rw [this.1, this.2]
      · intro k hk hbefore hfree
        match k with
        | 0 =>
          rw [Nat.add_zero] at hfree
          rw [hq] at hfree
          cases hfree
        | k' + 1 =>
          have hbefore2 : ∀ j, j < k' → existsQ (cand (i + 1 + j)) = true := by
            intro j hj
            have := hbefore (j + 1) (by omega)
            rwa [show i + (j + 1) = i + 1 + j by omega] at this
          have hfree2 : existsQ (cand (i + 1 + k')) = false := by
            rwa [show i + (k' + 1) = i + 1 + k' by omega] at hfree
          have := (ih (i + 1)).2.2 k' (by omega) hbefore2 hfree2
          rw [hG] at this
          rw [hstep]
          rw [Prod.mk.injEq] at this
          rw [this.1, this.2]
          rw [Prod.mk.injEq]
          exact ⟨by rw [show i + 1 + k' = i + (k' + 1) by omega], rfl⟩
    · rw [Bool.not_eq_true] at hq
      have hstep : genAux existsQ cand i (n + 1) = (.ok (cand i), 1) := by
        simp [genAux, hq]
      refine ⟨?_, ?_, ?_⟩
      · rw [hstep]
        omega
      · intro hall
        have := hall 0 (by omega)
        rw [Nat.add_zero, hq] at this
        cases this
      · intro k hk hbefore hfree
        match k with
        | 0 =>
          rw [hstep, Nat.add_zero]
        | k' + 1 =>
          have := hbefore 0 (by omega)
          rw [Nat.add_zero, hq] at this
          cases this

/-- C9: `generate_username` probes the existence check on at most 6
candidate names — the prefixed base `ZEUS_<raw>` first, then 5
random-suffixed variants — returns the first candidate that does not
exist, and raises the (Arabic) "username unavailable" error after all 6
are found taken. -/
theorem c9_username_generation (existsQ : String → Bool) (suffs : Nat → String)
    (raw : String) :
    ((generate_username existsQ suffs raw).2 ≤ 6)
  ∧ ((∀ i, i < 6 → existsQ (genCand ("ZEUS_" ++ raw) suffs i) = true) →
      (generate_username existsQ suffs raw).1 =
        Except.error "❌ اسم المستخدم غير متاح، جرّب اسمًا آخر" ∧
      (generate_username existsQ suffs raw).2 = 6)
  ∧ (∀ i, i < 6 →
      (∀ j, j < i → existsQ (genCand ("ZEUS_" ++ raw) suffs j) = true) →
      existsQ (genCand ("ZEUS_" ++ raw) suffs i) = false →
      (generate_username existsQ suffs raw).1 =
        Except.ok (genCand ("ZEUS_" ++ raw) suffs i) ∧
      (generate_username existsQ suffs raw).2 = i + 1) := by
  have h := genAux_spec existsQ (genCand ("ZEUS_" ++ raw) suffs) 6 0
  refine ⟨h.1, ?_, ?_⟩
  · intro hall
    have := h.2.1 (by intro k hk; simpa using hall k hk)
    unfold generate_username
    rw [this]
    exact ⟨rfl, rfl⟩
  · intro i hi hbefore hfree
    have := h.2.2 i hi (by intro j hj; simpa using hbefore j hj) (by simpa using hfree)
    unfold generate_username
    rw [this]
    simp

/-- Witness for C9: with every candidate reported taken, generation
raises the unavailable error after exactly 6 probes. -/
theorem c9_username_generation_witness :
    (generate_username (fun _ => true) (fun _ => "x7k") "bob").1 =
      Except.error "❌ اسم المستخدم غير متاح، جرّب اسمًا آخر" ∧
    (generate_username (fun _ => true) (fun _ => "x7k") "bob").2 = 6 :=
  (c9_username_generation (fun _ => true) (fun _ => "x7k") "bob").2.1
    (fun _ _ => rfl)

/-- In the all-taken environment, the probe at step `k` (request counter
and random counter both at `k`) reports the `k`-th candidate as taken. -/
theorem c10_probe_taken (b1 b2 : Bool) (c e l : Option String) (k : Nat) :
    bodyCheckEmailExists (mkArgs c10Login "" (c10CandAt k) "" 0 0) envEmailsAllTaken
      ⟨b1, b2, c, e, l, k, k⟩ =
      (⟨b1, b2, c, e, l, k + 1, k⟩, Except.ok (PyVal.bool true)) := by
  simp [bodyCheckEmailExists, postStep, envEmailsAllTaken, respWithEmail, mkArgs,
    foundFieldEq, recordsValE, dGetD, dLookup, scanFieldEq, pyEqStr]

/-- C10: the email-uniqueness loop of `create_player_with_credentials`
has no iteration bound — for EVERY fuel `n` there is a remote behaviour
(every probed candidate reported taken) under which the loop fails to
finish within `n` iterations — and it terminates precisely through the
precondition that some probed candidate does not exist: a probe reporting
the candidate free ends the loop at once with that email. This contrasts
with `generate_username`, which is bounded at 6 attempts (C9). -/
theorem c10_email_loop_unbounded :
    (∀ n k b1 b2 c e l,
      (emailLoop envEmailsAllTaken c10Login n ⟨b1, b2, c, e, l, k, k⟩
        (c10CandAt k)).2 = Except.error "fuel")
  ∧ (∀ env login n st email st1,
      bodyCheckEmailExists (mkArgs login "" email "" 0 0) env st =
        (st1, Except.ok (PyVal.bool false)) →
      emailLoop env login (n + 1) st email = (st1, Except.ok email)) := by
  constructor
  · intro n
    induction n with
    | zero => intro k b1 b2 c e l; rfl
    | succ n ih =>
      intro k b1 b2 c e l
      have hstep :
          emailLoop envEmailsAllTaken c10Login (n + 1) ⟨b1, b2, c, e, l, k, k⟩
            (c10CandAt k) =
          emailLoop envEmailsAllTaken c10Login n ⟨b1, b2, c, e, l, k + 1, k + 1⟩
            (c10CandAt (k + 1)) := by
        simp only [emailLoop, c10_probe_taken]
        rfl
      rw [hstep]
      exact ih (k + 1) b1 b2 c e l
  · intro env login n st email st1 h
    simp [emailLoop, h, pyTruthy]

/-- Witness for C10: a first probe reporting the candidate free ends the
loop immediately with that email. -/
theorem c10_email_loop_unbounded_witness :
    emailLoop envJsonFail "bob" 1 stInit "bob@TSA.com" =
      ({ stInit with httpIdx := 1 }, Except.ok "bob@TSA.com") :=
  c10_email_loop_unbounded.2 envJsonFail "bob" 0 stInit "bob@TSA.com"
    { stInit with httpIdx := 1 } rfl
